import Mathlib

/-!
Verification of the Settlement Ledger Engine of the CBM-Admin repository.

The engine lives in the settlement-management page: `generateSettlementId`
and `handleRecordSettlement` validate a settlement request against a cached
user list and then issue four sequential writes (settlement insert, ledger
insert, profile balance update, transfer insert) to independent stores.
The price-oracle lookup (`fetchNilaRate` and the `nila-rate` edge function)
is modelled separately.

Modelling conventions:
* Credit balances and `creditsUsed` are `Int` (JS numbers used as integers).
* `rewardAmount` / rates are `Rat` (decimal-valued JS numbers; no float
  rounding is exercised by any modelled path).
* The store-assigned row id of an inserted settlement (a DB-generated uuid
  in the source, read back via `.select().single()`) is an oracle input
  `rowId`, distinct from the `settlementId` string built by
  `generateSettlementId`.
* Each remote write can fail; a `Faults` record says which write fails.
  A failing write raises, the `catch` block only alerts, so the handler
  stops with the store as written so far (a failed insert writes nothing).
-/

namespace CBMAdmin

/-- A row of the `profiles` table / an entry of the cached `users` state. -/
structure User where
  id : String
  full_name : String
  email : String
  credit_balance : Int
  deriving Repr, DecidableEq

/-- The `formData` state of the settlement modal. -/
structure SettlementForm where
  userId : String
  creditsUsed : Int
  rewardAmount : Rat
  network : String
  walletAddress : String
  transactionHash : String
  notes : String
  deriving Repr, DecidableEq

/-- Settlement status values: `'pending' | 'processed' | 'failed'`. -/
inductive SettlementStatus where
  | pending
  | processed
  | failed
  deriving Repr, DecidableEq

/-- Transfer status values: `'completed' | 'pending' | 'failed'`. -/
inductive TransferStatus where
  | completed
  | pending
  | failed
  deriving Repr, DecidableEq

/-- A row of the `settlements` table. `id` is assigned by the store on
insert; the remaining fields come from `settlementPayload`. -/
structure SettlementRow where
  id : String
  settlementId : String
  userId : String
  creditsUsed : Int
  rewardAmount : Rat
  network : String
  walletAddress : String
  transactionHash : Option String
  status : SettlementStatus
  notes : Option String
  deriving Repr, DecidableEq

/-- A row of the `credit_ledger` table, as built by `ledgerPayload`. -/
structure LedgerRow where
  userId : String
  amount : Int
  transaction_type : String
  description : String
  reference_id : String
  balance_after : Int
  deriving Repr, DecidableEq

/-- A row of the `nila_transfers` table, as built by `transferPayload`. -/
structure TransferRow where
  userId : String
  settlementId : String
  nilaAmount : Rat
  network : String
  walletAddress : String
  transactionHash : Option String
  status : TransferStatus
  transferType : String
  notes : String
  deriving Repr, DecidableEq

/-- The four backing stores touched by the handler. -/
structure Store where
  settlements : List SettlementRow
  credit_ledger : List LedgerRow
  profiles : List User
  nila_transfers : List TransferRow
  deriving Repr, DecidableEq

/-- Which of the four remote writes fails (throws) in a given attempt. -/
structure Faults where
  settlementInsertFails : Bool
  ledgerInsertFails : Bool
  profileUpdateFails : Bool
  transferInsertFails : Bool
  deriving Repr, DecidableEq

/-- The fault-free schedule: every store write succeeds. -/
def noFaults : Faults :=
  { settlementInsertFails := false, ledgerInsertFails := false
    profileUpdateFails := false, transferInsertFails := false }

/-- Outcome of one `handleRecordSettlement` invocation. `noUser` and
`insufficient` are the early-return alerts; `persistenceError` is the
`catch` branch naming the write that threw; `success` carries the
settlement row returned by the first insert. -/
inductive SettleResult where
  | noUser
  | insufficient (currentBalance : Int)
  | persistenceError (step : String)
  | success (settlement : SettlementRow)
  deriving Repr, DecidableEq

/-- JS `String.prototype.trim`: strip leading and trailing whitespace
(written over the character list so the kernel can evaluate it). -/
def trimStr (s : String) : String :=
  String.mk
    (((s.data.dropWhile Char.isWhitespace).reverse.dropWhile
        Char.isWhitespace).reverse)

/-- `s.trim() || null`: empty-after-trim strings become `null`. -/
def trimOrNull (s : String) : Option String :=
  if trimStr s = "" then none else some (trimStr s)

/-- `` `STL_${timestamp}_${random}`.toUpperCase() `` with `timestamp` from
`Date.now()` and `random` a base-36 suffix from `Math.random()` (uppercase
written as a character map so the kernel can evaluate it). -/
def generateSettlementId (timestamp : Nat) (random : String) : String :=
  String.mk (("STL_" ++ toString timestamp ++ "_" ++ random).data.map
    Char.toUpper)

/-- `handleRecordSettlement`, translated step by step from the source.

`users` is the cached user list captured by the handler's closure,
`settlementId` the value produced by `generateSettlementId`, `rowId` the
store-assigned id of the settlement insert, `faults` the fault schedule,
`store` the current contents of the four tables. Returns the handler's
outcome and the store as left behind. -/
def handleRecordSettlement (users : List User) (form : SettlementForm)
    (settlementId : String) (rowId : String) (faults : Faults)
    (store : Store) : SettleResult × Store :=
  match users.find? (fun u => u.id == form.userId) with
  | none => (SettleResult.noUser, store)
  | some selectedUser =>
    if form.creditsUsed > selectedUser.credit_balance then
      (SettleResult.insufficient selectedUser.credit_balance, store)
    else
      let settlementPayload : SettlementRow :=
        { id := rowId
          settlementId := settlementId
          userId := form.userId
          creditsUsed := form.creditsUsed
          rewardAmount := form.rewardAmount
          network := form.network
          walletAddress := trimStr form.walletAddress
          transactionHash := trimOrNull form.transactionHash
          status := SettlementStatus.processed
          notes := trimOrNull form.notes }
      if faults.settlementInsertFails then
        (SettleResult.persistenceError "settlements", store)
      else
        let store1 : Store :=
          { store with settlements := store.settlements ++ [settlementPayload] }
        let settlement := settlementPayload
        let ledgerPayload : LedgerRow :=
          { userId := form.userId
            amount := -form.creditsUsed
            transaction_type := "settlement_debit"
            description := "Digital Asset Reward Settlement - " ++ settlementId
            reference_id := settlement.id
            balance_after := selectedUser.credit_balance - form.creditsUsed }
        if faults.ledgerInsertFails then
          (SettleResult.persistenceError "credit_ledger", store1)
        else
          let store2 : Store :=
            { store1 with credit_ledger := store1.credit_ledger ++ [ledgerPayload] }
          if faults.profileUpdateFails then
            (SettleResult.persistenceError "profiles", store2)
          else
            let store3 : Store :=
              { store2 with profiles := store2.profiles.map (fun u =>
                  if u.id == form.userId then
                    { u with credit_balance :=
                        selectedUser.credit_balance - form.creditsUsed }
                  else u) }
            let transferPayload : TransferRow :=
              { userId := form.userId
                settlementId := settlement.id
                nilaAmount := form.rewardAmount
                network := form.network
                walletAddress := trimStr form.walletAddress
                transactionHash := trimOrNull form.transactionHash
                status := TransferStatus.completed
                transferType := "settlement_reward"
                notes := "Digital Asset Reward Settlement - " ++ settlementId }
            if faults.transferInsertFails then
              (SettleResult.persistenceError "nila_transfers", store3)
            else
              let store4 : Store :=
                { store3 with
                    nila_transfers := store3.nila_transfers ++ [transferPayload] }
              (SettleResult.success settlement, store4)

/-! ## Shapes of the rows the handler writes -/

/-- The `settlementPayload` record literal, as a function of its inputs
(the store-assigned `rid` standing for the actual row id on insert). -/
def settlementRowOf (form : SettlementForm) (sid rid : String) :
    SettlementRow :=
  { id := rid
    settlementId := sid
    userId := form.userId
    creditsUsed := form.creditsUsed
    rewardAmount := form.rewardAmount
    network := form.network
    walletAddress := trimStr form.walletAddress
    transactionHash := trimOrNull form.transactionHash
    status := SettlementStatus.processed
    notes := trimOrNull form.notes }

/-- The `ledgerPayload` record literal: amount `-creditsUsed`,
`reference_id` the settlement row's id, `balance_after` computed from the
cached balance. -/
def ledgerRowOf (form : SettlementForm) (u : User) (sid rid : String) :
    LedgerRow :=
  { userId := form.userId
    amount := -form.creditsUsed
    transaction_type := "settlement_debit"
    description := "Digital Asset Reward Settlement - " ++ sid
    reference_id := rid
    balance_after := u.credit_balance - form.creditsUsed }

/-- The `transferPayload` record literal: `settlementId` holds the
settlement row's id, status `completed`. -/
def transferRowOf (form : SettlementForm) (sid rid : String) : TransferRow :=
  { userId := form.userId
    settlementId := rid
    nilaAmount := form.rewardAmount
    network := form.network
    walletAddress := trimStr form.walletAddress
    transactionHash := trimOrNull form.transactionHash
    status := TransferStatus.completed
    transferType := "settlement_reward"
    notes := "Digital Asset Reward Settlement - " ++ sid }

/-- The profile update: every profile row matching the form's user id gets
`credit_balance := cached balance − creditsUsed`. -/
def debitProfiles (form : SettlementForm) (u : User) (ps : List User) :
    List User :=
  ps.map fun w =>
    if w.id == form.userId then
      { w with credit_balance := u.credit_balance - form.creditsUsed }
    else w

/-- A fault-free run that passes validation performs all four writes and
returns the settlement row. -/
theorem handleRecordSettlement_success (users : List User)
    (form : SettlementForm) (sid rid : String) (store : Store) (u : User)
    (hu : users.find? (fun w => w.id == form.userId) = some u)
    (hle : form.creditsUsed ≤ u.credit_balance) :
    handleRecordSettlement users form sid rid noFaults store =
      (SettleResult.success (settlementRowOf form sid rid),
        { settlements := store.settlements ++ [settlementRowOf form sid rid]
          credit_ledger := store.credit_ledger ++ [ledgerRowOf form u sid rid]
          profiles := debitProfiles form u store.profiles
          nila_transfers :=
            store.nila_transfers ++ [transferRowOf form sid rid] }) := by
  unfold handleRecordSettlement
  rw [hu]
  dsimp only
  rw [if_neg (not_lt.mpr hle)]
  rfl

/-- Whatever happens downstream, once validation passes and the settlement
insert succeeds, the settlements table has gained exactly the
`settlementPayload` row. -/
theorem handleRecordSettlement_afterInsert (users : List User)
    (form : SettlementForm) (sid rid : String) (faults : Faults)
    (store : Store) (u : User)
    (hu : users.find? (fun w => w.id == form.userId) = some u)
    (hle : form.creditsUsed ≤ u.credit_balance)
    (h0 : faults.settlementInsertFails = false) :
    (handleRecordSettlement users form sid rid faults store).2.settlements =
      store.settlements ++ [settlementRowOf form sid rid] := by
  unfold handleRecordSettlement
  rw [hu]
  dsimp only
  rw [if_neg (not_lt.mpr hle)]
  rw [h0]
  cases hl : faults.ledgerInsertFails <;>
    cases hp : faults.profileUpdateFails <;>
      cases ht : faults.transferInsertFails <;> rfl

/-- A run that passes validation, inserts the settlement, and then hits a
failing write stops with a `persistenceError` naming that write. -/
theorem handleRecordSettlement_midFailure_result (users : List User)
    (form : SettlementForm) (sid rid : String) (faults : Faults)
    (store : Store) (u : User)
    (hu : users.find? (fun w => w.id == form.userId) = some u)
    (hle : form.creditsUsed ≤ u.credit_balance)
    (h0 : faults.settlementInsertFails = false)
    (hf : faults.ledgerInsertFails = true ∨ faults.profileUpdateFails = true ∨
      faults.transferInsertFails = true) :
    ∃ step,
      (handleRecordSettlement users form sid rid faults store).1 =
        SettleResult.persistenceError step := by
  unfold handleRecordSettlement
  rw [hu]
  dsimp only
  rw [if_neg (not_lt.mpr hle)]
  rw [h0]
  cases hl : faults.ledgerInsertFails
  · cases hp : faults.profileUpdateFails
    · cases ht : faults.transferInsertFails
      · rw [hl, hp, ht] at hf
        simp at hf
      · exact ⟨"nila_transfers", rfl⟩
    · exact ⟨"profiles", rfl⟩
  · exact ⟨"credit_ledger", rfl⟩

/-! ## Price-oracle lookup (`fetchNilaRate` and the `nila-rate` function)

An upstream HTTP source is abstracted by what the calling code can observe:
the fetch threw, the response was not ok, or a body was parsed from which a
`nila` rate field was extracted (`none` when missing or not a number; both
accepted CoinGecko shapes collapse to this field). -/

/-- Observable outcome of one upstream fetch. -/
inductive FetchOutcome where
  | throw
  | notOk
  | ok (nila : Option Rat)
  deriving Repr, DecidableEq

/-- `const FALLBACK_RATE = 0.01234`. -/
def FALLBACK_RATE : Rat := 1234 / 100000

/-- The positive rate an upstream outcome yields, when it yields one: a
parsed body whose rate field is a number `> 0` (the acceptance test
`typeof rate === 'number' && rate > 0` resp. `rate && rate > 0`). -/
def validRateOf : FetchOutcome → Option Rat
  | FetchOutcome.ok (some r) => if 0 < r then some r else none
  | _ => none

/-- The CoinGecko leg of `fetchNilaRate`: the rate when present and `> 0`,
otherwise `FALLBACK_RATE` (not-ok responses and the outer catch for a
thrown fetch both land on the fallback return). -/
def coingeckoRate : FetchOutcome → Rat
  | FetchOutcome.ok (some r) => if 0 < r then r else FALLBACK_RATE
  | _ => FALLBACK_RATE

/-- `fetchNilaRate`: try the backend proxy when `VITE_NILA_RATE_ENDPOINT`
is configured, accepting its rate only when it is a number `> 0`; any
backend failure or invalid rate falls through to the CoinGecko leg. -/
def fetchNilaRate (backendConfigured : Bool)
    (backend coingecko : FetchOutcome) : Rat :=
  match (if backendConfigured then validRateOf backend else none) with
  | some r => r
  | none => coingeckoRate coingecko

/-- Response of the `nila-rate` edge function as the client observes it. -/
inductive RateResponse where
  | methodNotAllowed
  | okRate (nila : Rat)
  deriving Repr, DecidableEq

/-- The `nila-rate` serve handler: non-GET gets 405; otherwise CoinGecko is
queried and the response carries its rate when present and `> 0`, else the
hardcoded `0.01234` with status 200. -/
def nilaRateHandler (method : String) (coingecko : FetchOutcome) :
    RateResponse :=
  if method ≠ "GET" then RateResponse.methodNotAllowed
  else
    match coingecko with
    | FetchOutcome.ok (some r) =>
        if 0 < r then RateResponse.okRate r
        else RateResponse.okRate FALLBACK_RATE
    | _ => RateResponse.okRate FALLBACK_RATE

/-- No upstream source produced a valid positive rate: the backend (when
configured at all) and CoinGecko each threw, were not ok, or yielded a
missing or non-positive rate field. -/
def noUpstreamValid (backendConfigured : Bool)
    (backend coingecko : FetchOutcome) : Prop :=
  (backendConfigured = true → validRateOf backend = none) ∧
  validRateOf coingecko = none

/-- The hardcoded fallback is a positive rate. -/
theorem FALLBACK_RATE_pos : (0 : Rat) < FALLBACK_RATE := by
  norm_num [FALLBACK_RATE]

/-- A rate accepted from an upstream source is positive. -/
theorem validRateOf_pos (o : FetchOutcome) (r : Rat)
    (h : validRateOf o = some r) : 0 < r := by
  cases o with
  | ok n =>
    cases n with
    | some r' =>
      unfold validRateOf at h
      dsimp only at h
      by_cases hr : 0 < r'
      · rw [if_pos hr] at h
        cases h
        exact hr
      · rw [if_neg hr] at h
        cases h
    | none => cases h
  | throw => cases h
  | notOk => cases h

/-- The CoinGecko leg always produces a positive rate. -/
theorem coingeckoRate_pos (o : FetchOutcome) : 0 < coingeckoRate o := by
  cases o with
  | ok n =>
    cases n with
    | some r =>
      unfold coingeckoRate
      dsimp only
      by_cases hr : 0 < r
      · rwa [if_pos hr]
      · rw [if_neg hr]
        exact FALLBACK_RATE_pos
    | none => exact FALLBACK_RATE_pos
  | throw => exact FALLBACK_RATE_pos
  | notOk => exact FALLBACK_RATE_pos

/-- When CoinGecko yields no valid rate, its leg is the fallback. -/
theorem coingeckoRate_of_invalid (o : FetchOutcome)
    (h : validRateOf o = none) : coingeckoRate o = FALLBACK_RATE := by
  cases o with
  | ok n =>
    cases n with
    | some r =>
      unfold validRateOf at h
      unfold coingeckoRate
      dsimp only at h ⊢
      by_cases hr : 0 < r
      · rw [if_pos hr] at h
        cases h
      · rw [if_neg hr]
    | none => rfl
  | throw => rfl
  | notOk => rfl

/-- For a GET request the edge function returns exactly the CoinGecko
leg's value as its body. -/
theorem nilaRateHandler_get (o : FetchOutcome) :
    nilaRateHandler "GET" o = RateResponse.okRate (coingeckoRate o) := by
  unfold nilaRateHandler coingeckoRate
  rw [if_neg (by simp)]
  cases o with
  | ok n =>
    cases n with
    | some r =>
      dsimp only
      by_cases hr : 0 < r
      · rw [if_pos hr, if_pos hr]
      · rw [if_neg hr, if_neg hr]
    | none => rfl
  | throw => rfl
  | notOk => rfl

/-! ## Concrete fixtures -/

/-- Scenario A user: balance 500. -/
def userAlice : User :=
  { id := "u1", full_name := "Alice", email := "alice@example.com"
    credit_balance := 500 }

/-- Scenario B user: balance 100. -/
def userBob : User :=
  { id := "u2", full_name := "Bob", email := "bob@example.com"
    credit_balance := 100 }

/-- Scenario D user: balance 200. -/
def userDana : User :=
  { id := "u4", full_name := "Dana", email := "dana@example.com"
    credit_balance := 200 }

/-- Scenario A request: 200 credits, reward 10, polygon, wallet 0xabc. -/
def formA : SettlementForm :=
  { userId := "u1", creditsUsed := 200, rewardAmount := 10
    network := "polygon", walletAddress := "0xabc", transactionHash := ""
    notes := "" }

/-- Scenario B request: 150 credits against balance 100. -/
def formB : SettlementForm :=
  { userId := "u2", creditsUsed := 150, rewardAmount := 0
    network := "ethereum", walletAddress := "0xdef", transactionHash := ""
    notes := "" }

/-- Scenario D request: 200 credits against balance 200. -/
def formD : SettlementForm :=
  { userId := "u4", creditsUsed := 200, rewardAmount := 5
    network := "bsc", walletAddress := "0x123", transactionHash := ""
    notes := "" }

/-- Initial store for scenario A: only Alice's profile. -/
def storeA : Store :=
  { settlements := [], credit_ledger := [], profiles := [userAlice]
    nila_transfers := [] }

/-- Initial store for scenario B. -/
def storeB : Store :=
  { settlements := [], credit_ledger := [], profiles := [userBob]
    nila_transfers := [] }

/-- Initial store for scenario D. -/
def storeD : Store :=
  { settlements := [], credit_ledger := [], profiles := [userDana]
    nila_transfers := [] }

/-- A settlement id as `generateSettlementId` produces it. -/
def sidA : String := generateSettlementId 1700000000000 "ab12cd"

/-- Scenario A run, fault-free. -/
def runA : SettleResult × Store :=
  handleRecordSettlement [userAlice] formA sidA "a1b2c3" noFaults storeA

/-- The schedule where only the ledger insert fails. -/
def ledgerFault : Faults := { noFaults with ledgerInsertFails := true }

/-- Scenario A run in which the ledger insert throws. -/
def runAFaultLedger : SettleResult × Store :=
  handleRecordSettlement [userAlice] formA sidA "a1b2c3" ledgerFault storeA

/-! ## Claims -/

/-- C3: a request whose `creditsUsed` strictly exceeds the selected user's
current credit balance is rejected at validation with the insufficient-
credits alert, and the run returns with every store untouched: no
settlement row, no ledger entry, no balance mutation, no transfer row. -/
theorem insufficientBalance_rejected_noWrites (users : List User)
    (form : SettlementForm) (sid rid : String) (faults : Faults)
    (store : Store) (u : User)
    (hu : users.find? (fun w => w.id == form.userId) = some u)
    (hover : u.credit_balance < form.creditsUsed) :
    handleRecordSettlement users form sid rid faults store =
      (SettleResult.insufficient u.credit_balance, store) := by
  unfold handleRecordSettlement
  rw [hu]
  dsimp only
  rw [if_pos hover]

/-- Scenario B instance of C3: balance 100, creditsUsed 150. -/
theorem insufficientBalance_rejected_noWrites_witness :
    handleRecordSettlement [userBob] formB "STL_B" "rowb" noFaults storeB =
      (SettleResult.insufficient 100, storeB) :=
  insufficientBalance_rejected_noWrites [userBob] formB "STL_B" "rowb"
    noFaults storeB userBob (by rfl) (by decide)

/-- C5: `creditsUsed` exactly equal to the cached balance passes the
strict `>` validation; the fault-free run completes with the settlement
returned as success with status processed and a ledger entry whose
`balance_after` is 0. -/
theorem exactBalance_proceeds (users : List User) (form : SettlementForm)
    (sid rid : String) (store : Store) (u : User)
    (hu : users.find? (fun w => w.id == form.userId) = some u)
    (heq : form.creditsUsed = u.credit_balance) :
    (handleRecordSettlement users form sid rid noFaults store).1 =
      SettleResult.success (settlementRowOf form sid rid) ∧
    (settlementRowOf form sid rid).status = SettlementStatus.processed ∧
    (handleRecordSettlement users form sid rid noFaults store).2.credit_ledger
      = store.credit_ledger ++ [ledgerRowOf form u sid rid] ∧
    (ledgerRowOf form u sid rid).balance_after = 0 := by
  rw [handleRecordSettlement_success users form sid rid store u hu
    (le_of_eq heq)]
  refine ⟨rfl, rfl, rfl, ?_⟩
  simp [ledgerRowOf, heq]

/-- Scenario D instance of C5: balance 200, creditsUsed 200. -/
theorem exactBalance_proceeds_witness :
    (handleRecordSettlement [userDana] formD "STL_D" "rowd" noFaults
        storeD).1 = SettleResult.success (settlementRowOf formD "STL_D" "rowd")
      ∧
    (settlementRowOf formD "STL_D" "rowd").status =
      SettlementStatus.processed ∧
    (handleRecordSettlement [userDana] formD "STL_D" "rowd" noFaults
        storeD).2.credit_ledger =
      storeD.credit_ledger ++ [ledgerRowOf formD userDana "STL_D" "rowd"] ∧
    (ledgerRowOf formD userDana "STL_D" "rowd").balance_after = 0 :=
  exactBalance_proceeds [userDana] formD "STL_D" "rowd" storeD userDana
    (by rfl) (by decide)

/-- C4: a fault-free settlement that passes validation with cached balance
B and creditsUsed C writes a ledger entry with amount −C and balanceAfter
B − C, updates every stored profile of that user to B − C, and appends a
transfer row with status completed. -/
theorem successfulSettlement_writes (users : List User)
    (form : SettlementForm) (sid rid : String) (store : Store) (u : User)
    (hu : users.find? (fun w => w.id == form.userId) = some u)
    (hle : form.creditsUsed ≤ u.credit_balance) :
    (handleRecordSettlement users form sid rid noFaults store).1 =
      SettleResult.success (settlementRowOf form sid rid) ∧
    (handleRecordSettlement users form sid rid noFaults store).2.credit_ledger
      = store.credit_ledger ++ [ledgerRowOf form u sid rid] ∧
    (ledgerRowOf form u sid rid).amount = -form.creditsUsed ∧
    (ledgerRowOf form u sid rid).balance_after =
      u.credit_balance - form.creditsUsed ∧
    (∀ p ∈ (handleRecordSettlement users form sid rid noFaults
        store).2.profiles,
      p.id = form.userId →
        p.credit_balance = u.credit_balance - form.creditsUsed) ∧
    (handleRecordSettlement users form sid rid noFaults store).2.nila_transfers
      = store.nila_transfers ++ [transferRowOf form sid rid] ∧
    (transferRowOf form sid rid).status = TransferStatus.completed := by
  rw [handleRecordSettlement_success users form sid rid store u hu hle]
  refine ⟨rfl, rfl, rfl, rfl, ?_, rfl, rfl⟩
  intro p hp hpid
  simp only [debitProfiles, List.mem_map] at hp
  obtain ⟨q, hq, rfl⟩ := hp
  cases hqid : (q.id == form.userId) with
  | true => rfl
  | false =>
    rw [hqid] at hpid
    simp only [Bool.false_eq_true, if_false] at hpid
    simp [hpid] at hqid

/-- Scenario A instance of C4: balance 500, creditsUsed 200, reward 10,
polygon, wallet 0xabc → ledger amount −200 with balanceAfter 300, balance
updated to 300, transfer completed. -/
theorem successfulSettlement_writes_witness :
    runA.1 = SettleResult.success (settlementRowOf formA sidA "a1b2c3") ∧
    runA.2.credit_ledger = [ledgerRowOf formA userAlice sidA "a1b2c3"] ∧
    (ledgerRowOf formA userAlice sidA "a1b2c3").amount = -200 ∧
    (ledgerRowOf formA userAlice sidA "a1b2c3").balance_after = 300 ∧
    runA.2.profiles = [{ userAlice with credit_balance := 300 }] ∧
    runA.2.nila_transfers = [transferRowOf formA sidA "a1b2c3"] ∧
    (transferRowOf formA sidA "a1b2c3").status = TransferStatus.completed := by
  have h := successfulSettlement_writes [userAlice] formA sidA "a1b2c3"
    storeA userAlice (by rfl) (by decide)
  exact ⟨h.1, h.2.1, h.2.2.1, h.2.2.2.1, by decide, h.2.2.2.2.2.1,
    h.2.2.2.2.2.2⟩

/-- Store whose persisted balance for Alice (999) disagrees with the
cached one (500), to exercise the stale-cache case of C10. -/
def staleStore : Store :=
  { settlements := [], credit_ledger := []
    profiles := [{ userAlice with credit_balance := 999 }]
    nila_transfers := [] }

/-- Fault-free run against `staleStore` with the stale cache `[userAlice]`. -/
def runStale : SettleResult × Store :=
  handleRecordSettlement [userAlice] formA sidA "r10" noFaults staleStore

/-- C10: within one run, the ledger's `balance_after` and the balance
written to every matching profile are both computed from the cached
`selectedUser.credit_balance`, hence equal to each other — with no
assumption that the cached balance matches the one currently stored. -/
theorem ledgerBalanceAfter_matches_profileWrite (users : List User)
    (form : SettlementForm) (sid rid : String) (store : Store) (u : User)
    (hu : users.find? (fun w => w.id == form.userId) = some u)
    (hle : form.creditsUsed ≤ u.credit_balance) :
    (handleRecordSettlement users form sid rid noFaults store).2.credit_ledger
      = store.credit_ledger ++ [ledgerRowOf form u sid rid] ∧
    (ledgerRowOf form u sid rid).balance_after =
      u.credit_balance - form.creditsUsed ∧
    (∀ p ∈ (handleRecordSettlement users form sid rid noFaults
        store).2.profiles,
      p.id = form.userId →
        p.credit_balance = (ledgerRowOf form u sid rid).balance_after) := by
  rw [handleRecordSettlement_success users form sid rid store u hu hle]
  refine ⟨rfl, rfl, ?_⟩
  intro p hp hpid
  simp only [debitProfiles, List.mem_map] at hp
  obtain ⟨q, hq, rfl⟩ := hp
  cases hqid : (q.id == form.userId) with
  | true => rfl
  | false =>
    rw [hqid] at hpid
    simp only [Bool.false_eq_true, if_false] at hpid
    simp [hpid] at hqid

/-- Stale-cache instance of C10: the store holds balance 999 for the user
while the cache says 500; both written values are 300, equal to each other
and both wrong relative to the stored 999. -/
theorem ledgerBalanceAfter_matches_profileWrite_witness :
    runStale.2.credit_ledger = [ledgerRowOf formA userAlice sidA "r10"] ∧
    (ledgerRowOf formA userAlice sidA "r10").balance_after = 300 ∧
    runStale.2.profiles = [{ userAlice with credit_balance := 300 }] := by
  have h := ledgerBalanceAfter_matches_profileWrite [userAlice] formA sidA
    "r10" staleStore userAlice (by rfl) (by decide)
  exact ⟨h.1, h.2.1, by decide⟩

/-- C9: whenever neither the backend proxy (when configured) nor CoinGecko
yields a positive numeric rate, `fetchNilaRate` returns the hardcoded
`FALLBACK_RATE = 0.01234`; the returned rate is positive in every case;
and the `nila-rate` function answers a GET with the fallback body whenever
CoinGecko yields no valid rate. -/
theorem fetchNilaRate_fallback_and_positive (backendConfigured : Bool)
    (backend coingecko : FetchOutcome) :
    (noUpstreamValid backendConfigured backend coingecko →
      fetchNilaRate backendConfigured backend coingecko = FALLBACK_RATE) ∧
    0 < fetchNilaRate backendConfigured backend coingecko ∧
    (validRateOf coingecko = none →
      nilaRateHandler "GET" coingecko = RateResponse.okRate FALLBACK_RATE) := by
  refine ⟨?_, ?_, ?_⟩
  · rintro ⟨hb, hcg⟩
    unfold fetchNilaRate
    cases backendConfigured with
    | false => simpa using coingeckoRate_of_invalid coingecko hcg
    | true =>
      rw [if_pos rfl, hb rfl]
      exact coingeckoRate_of_invalid coingecko hcg
  · unfold fetchNilaRate
    cases hv : (if backendConfigured then validRateOf backend else none) with
    | none => exact coingeckoRate_pos coingecko
    | some r =>
      cases backendConfigured with
      | false => simp at hv
      | true => exact validRateOf_pos backend r (by simpa using hv)
  · intro hcg
    rw [nilaRateHandler_get coingecko, coingeckoRate_of_invalid coingecko hcg]

/-- Instance of C9: backend configured but not ok, CoinGecko body missing
the rate field — the fallback 0.01234 is returned, and the edge function
also answers with the fallback body. -/
theorem fetchNilaRate_fallback_and_positive_witness :
    fetchNilaRate true FetchOutcome.notOk (FetchOutcome.ok none) =
      FALLBACK_RATE ∧
    nilaRateHandler "GET" (FetchOutcome.ok none) =
      RateResponse.okRate FALLBACK_RATE := by
  have h := fetchNilaRate_fallback_and_positive true FetchOutcome.notOk
    (FetchOutcome.ok none)
  exact ⟨h.1 ⟨fun _ => rfl, rfl⟩, h.2.2 rfl⟩

/-- C1 fails on the code: with the ledger insert failing right after the
Settlement row was created, the run returns a persistence error while the
stored settlement keeps the status it was created with ('processed'); no
row is ever set to 'failed'. -/
theorem settlementLeftUnfailed_counterexample :
    runAFaultLedger.1 = SettleResult.persistenceError "credit_ledger" ∧
    runAFaultLedger.2.settlements.map SettlementRow.status =
      [SettlementStatus.processed] ∧
    runAFaultLedger.2.settlements.countP
      (fun s => s.status == SettlementStatus.failed) = 0 := by
  decide

/-- C1 amended: when a write after the settlement insert fails, the run
stops with a persistence error naming the failing write and performs no
compensating write — the settlements table has gained exactly the payload
row, whose status is the 'processed' it was created with; it is never
updated to 'failed'. -/
theorem midFailure_leaves_status_processed (users : List User)
    (form : SettlementForm) (sid rid : String) (faults : Faults)
    (store : Store) (u : User)
    (hu : users.find? (fun w => w.id == form.userId) = some u)
    (hle : form.creditsUsed ≤ u.credit_balance)
    (h0 : faults.settlementInsertFails = false)
    (hf : faults.ledgerInsertFails = true ∨ faults.profileUpdateFails = true ∨
      faults.transferInsertFails = true) :
    (∃ step, (handleRecordSettlement users form sid rid faults store).1 =
      SettleResult.persistenceError step) ∧
    (handleRecordSettlement users form sid rid faults store).2.settlements =
      store.settlements ++ [settlementRowOf form sid rid] ∧
    (settlementRowOf form sid rid).status = SettlementStatus.processed :=
  ⟨handleRecordSettlement_midFailure_result users form sid rid faults store u
      hu hle h0 hf,
    handleRecordSettlement_afterInsert users form sid rid faults store u
      hu hle h0,
    rfl⟩

/-- Instance of the amended C1: the ledger-fault run of scenario A. -/
theorem midFailure_leaves_status_processed_witness :
    (∃ step, runAFaultLedger.1 = SettleResult.persistenceError step) ∧
    runAFaultLedger.2.settlements =
      storeA.settlements ++ [settlementRowOf formA sidA "a1b2c3"] ∧
    (settlementRowOf formA sidA "a1b2c3").status =
      SettlementStatus.processed :=
  midFailure_leaves_status_processed [userAlice] formA sidA "a1b2c3"
    ledgerFault storeA userAlice (by rfl) (by decide) (by rfl)
    (Or.inl (by rfl))

/-- C2 fails on the code: the settlement row is inserted with status
'processed' up front; in this run the ledger insert fails, so none of the
downstream writes happened, yet the store already holds a processed
settlement — and no pending record ever existed. -/
theorem createdProcessed_counterexample :
    runAFaultLedger.2.settlements.map SettlementRow.status =
      [SettlementStatus.processed] ∧
    runAFaultLedger.2.credit_ledger = [] ∧
    runAFaultLedger.2.nila_transfers = [] ∧
    runAFaultLedger.2.profiles = [userAlice] := by
  decide

/-- C2 amended: whenever validation passes and the settlement insert
succeeds — under any fault schedule, so in particular before any
downstream write is known to succeed — the persisted row is created with
status 'processed' directly; no 'pending' record is ever written and no
later status transition exists. -/
theorem settlement_created_with_processed (users : List User)
    (form : SettlementForm) (sid rid : String) (faults : Faults)
    (store : Store) (u : User)
    (hu : users.find? (fun w => w.id == form.userId) = some u)
    (hle : form.creditsUsed ≤ u.credit_balance)
    (h0 : faults.settlementInsertFails = false) :
    (handleRecordSettlement users form sid rid faults store).2.settlements =
      store.settlements ++ [settlementRowOf form sid rid] ∧
    (settlementRowOf form sid rid).status = SettlementStatus.processed ∧
    (settlementRowOf form sid rid).status ≠ SettlementStatus.pending :=
  ⟨handleRecordSettlement_afterInsert users form sid rid faults store u
      hu hle h0,
    rfl, fun h => SettlementStatus.noConfusion h⟩

/-- Instance of the amended C2: the fault-free scenario A insert also
creates the row as processed. -/
theorem settlement_created_with_processed_witness :
    runA.2.settlements =
      storeA.settlements ++ [settlementRowOf formA sidA "a1b2c3"] ∧
    (settlementRowOf formA sidA "a1b2c3").status =
      SettlementStatus.processed ∧
    (settlementRowOf formA sidA "a1b2c3").status ≠
      SettlementStatus.pending :=
  settlement_created_with_processed [userAlice] formA sidA "a1b2c3" noFaults
    storeA userAlice (by rfl) (by decide) (by rfl)

/-- Every profile the balance update touches ends at
`cachedBalance − creditsUsed`. -/
theorem debitProfiles_balance (form : SettlementForm) (u : User)
    (ps : List User) :
    ∀ p ∈ debitProfiles form u ps, p.id = form.userId →
      p.credit_balance = u.credit_balance - form.creditsUsed := by
  intro p hp hpid
  simp only [debitProfiles, List.mem_map] at hp
  obtain ⟨q, hq, rfl⟩ := hp
  cases hqid : (q.id == form.userId) with
  | true => rfl
  | false =>
    rw [hqid] at hpid
    simp only [Bool.false_eq_true, if_false] at hpid
    simp [hpid] at hqid

/-- First invocation of the duplicated-settlementId experiment:
scenario A run with row id "row1". -/
def runDupFirst : SettleResult × Store :=
  handleRecordSettlement [userAlice] formA sidA "row1" noFaults storeA

/-- Second invocation with the SAME settlementId `sidA`, against the
refreshed user cache (`fetchUsers` re-reads `profiles`). -/
def runDupSecond : SettleResult × Store :=
  handleRecordSettlement runDupFirst.2.profiles formA sidA "row2" noFaults
    runDupFirst.2

/-- C6 fails on the code: nothing checks `settlementId` against the store,
so a second invocation carrying the same id runs to success as well: two
settlement rows with the same settlementId, two ledger entries, two debits
(final balance 100 after two 200-debits from 500) and two transfers. -/
theorem duplicateSettlementId_counterexample :
    runDupSecond.1 =
      SettleResult.success (settlementRowOf formA sidA "row2") ∧
    runDupSecond.2.settlements.map SettlementRow.settlementId =
      [sidA, sidA] ∧
    runDupSecond.2.credit_ledger.length = 2 ∧
    runDupSecond.2.nila_transfers.length = 2 ∧
    runDupSecond.2.profiles = [{ userAlice with credit_balance := 100 }] := by
  decide

/-- C6 amended: the handler has no idempotency handling keyed on
`settlementId`: whenever both invocations pass validation against their
caches, the second proceeds like any other — a second settlement row with
the same settlementId, a second ledger entry, and a second transfer are
written. -/
theorem recordSettlement_not_idempotent (users1 users2 : List User)
    (form : SettlementForm) (sid rid1 rid2 : String) (store : Store)
    (u1 u2 : User)
    (hu1 : users1.find? (fun w => w.id == form.userId) = some u1)
    (hle1 : form.creditsUsed ≤ u1.credit_balance)
    (hu2 : users2.find? (fun w => w.id == form.userId) = some u2)
    (hle2 : form.creditsUsed ≤ u2.credit_balance) :
    (handleRecordSettlement users1 form sid rid1 noFaults store).1 =
      SettleResult.success (settlementRowOf form sid rid1) ∧
    (handleRecordSettlement users2 form sid rid2 noFaults
        (handleRecordSettlement users1 form sid rid1 noFaults store).2).1 =
      SettleResult.success (settlementRowOf form sid rid2) ∧
    (handleRecordSettlement users2 form sid rid2 noFaults
        (handleRecordSettlement users1 form sid rid1 noFaults
          store).2).2.settlements =
      store.settlements ++
        [settlementRowOf form sid rid1, settlementRowOf form sid rid2] ∧
    (handleRecordSettlement users2 form sid rid2 noFaults
        (handleRecordSettlement users1 form sid rid1 noFaults
          store).2).2.credit_ledger =
      store.credit_ledger ++
        [ledgerRowOf form u1 sid rid1, ledgerRowOf form u2 sid rid2] ∧
    (handleRecordSettlement users2 form sid rid2 noFaults
        (handleRecordSettlement users1 form sid rid1 noFaults
          store).2).2.nila_transfers =
      store.nila_transfers ++
        [transferRowOf form sid rid1, transferRowOf form sid rid2] ∧
    (settlementRowOf form sid rid1).settlementId = sid ∧
    (settlementRowOf form sid rid2).settlementId = sid := by
  rw [handleRecordSettlement_success users1 form sid rid1 store u1 hu1 hle1]
  rw [handleRecordSettlement_success users2 form sid rid2 _ u2 hu2 hle2]
  refine ⟨rfl, rfl, ?_, ?_, ?_, rfl, rfl⟩ <;> simp

/-- Instance of the amended C6: the two runs of the duplicated-id
experiment, with the refreshed cache holding balance 300. -/
theorem recordSettlement_not_idempotent_witness :
    runDupFirst.1 =
      SettleResult.success (settlementRowOf formA sidA "row1") ∧
    runDupSecond.1 =
      SettleResult.success (settlementRowOf formA sidA "row2") ∧
    runDupSecond.2.settlements =
      storeA.settlements ++
        [settlementRowOf formA sidA "row1", settlementRowOf formA sidA "row2"]
      ∧
    runDupSecond.2.credit_ledger =
      storeA.credit_ledger ++
        [ledgerRowOf formA userAlice sidA "row1",
          ledgerRowOf formA { userAlice with credit_balance := 300 } sidA
            "row2"] ∧
    runDupSecond.2.nila_transfers =
      storeA.nila_transfers ++
        [transferRowOf formA sidA "row1", transferRowOf formA sidA "row2"] ∧
    (settlementRowOf formA sidA "row1").settlementId = sidA ∧
    (settlementRowOf formA sidA "row2").settlementId = sidA :=
  recordSettlement_not_idempotent [userAlice] runDupFirst.2.profiles formA
    sidA "row1" "row2" storeA userAlice
    { userAlice with credit_balance := 300 }
    (by rfl) (by decide) (by rfl) (by decide)

/-- Scenario C request: 300 credits of Alice's 500. -/
def formC : SettlementForm :=
  { userId := "u1", creditsUsed := 300, rewardAmount := 1
    network := "polygon", walletAddress := "0xabc", transactionHash := ""
    notes := "" }

/-- First concurrent scenario C request, run to completion. -/
def runConcA : SettleResult × Store :=
  handleRecordSettlement [userAlice] formC "STL_C1" "rcA" noFaults storeA

/-- Second concurrent scenario C request: its closure captured the same
cache `[userAlice]` before the first run wrote anything, so it validates
against the stale balance 500. -/
def runConcB : SettleResult × Store :=
  handleRecordSettlement [userAlice] formC "STL_C2" "rcB" noFaults runConcA.2

/-- C8 fails on the code: with balance 500 and two concurrent 300-credit
requests sharing the pre-write cache, BOTH runs succeed — two processed
settlements, two ledger entries each claiming balanceAfter 200, cumulative
debits −600, and a final stored balance of 200 that silently understates
them. The second request is not rejected with any error. -/
theorem concurrentOverdraft_counterexample :
    runConcA.1 = SettleResult.success (settlementRowOf formC "STL_C1" "rcA")
      ∧
    runConcB.1 = SettleResult.success (settlementRowOf formC "STL_C2" "rcB")
      ∧
    runConcB.2.settlements.map SettlementRow.status =
      [SettlementStatus.processed, SettlementStatus.processed] ∧
    runConcB.2.credit_ledger.map LedgerRow.balance_after = [200, 200] ∧
    (runConcB.2.credit_ledger.map LedgerRow.amount).sum = -600 ∧
    runConcB.2.profiles = [{ userAlice with credit_balance := 200 }] := by
  decide

/-- C8 amended: two settlement requests for the same user whose closures
share the cached user list both pass the stale validation and both
complete: two settlements are processed, two ledger entries are written
(each with balanceAfter computed from the same stale balance), and the
final stored balance is cachedBalance − creditsUsed of the last writer —
non-negative, but blind to the first debit. -/
theorem concurrentRequests_both_succeed (users : List User)
    (form1 form2 : SettlementForm) (sid1 sid2 rid1 rid2 : String)
    (store : Store) (u : User)
    (hu1 : users.find? (fun w => w.id == form1.userId) = some u)
    (hsame : form2.userId = form1.userId)
    (hle1 : form1.creditsUsed ≤ u.credit_balance)
    (hle2 : form2.creditsUsed ≤ u.credit_balance) :
    (handleRecordSettlement users form1 sid1 rid1 noFaults store).1 =
      SettleResult.success (settlementRowOf form1 sid1 rid1) ∧
    (handleRecordSettlement users form2 sid2 rid2 noFaults
        (handleRecordSettlement users form1 sid1 rid1 noFaults store).2).1 =
      SettleResult.success (settlementRowOf form2 sid2 rid2) ∧
    (handleRecordSettlement users form2 sid2 rid2 noFaults
        (handleRecordSettlement users form1 sid1 rid1 noFaults
          store).2).2.credit_ledger =
      store.credit_ledger ++
        [ledgerRowOf form1 u sid1 rid1, ledgerRowOf form2 u sid2 rid2] ∧
    (∀ p ∈ (handleRecordSettlement users form2 sid2 rid2 noFaults
        (handleRecordSettlement users form1 sid1 rid1 noFaults
          store).2).2.profiles,
      p.id = form2.userId →
        p.credit_balance = u.credit_balance - form2.creditsUsed ∧
        0 ≤ p.credit_balance) := by
  have hu2 : users.find? (fun w => w.id == form2.userId) = some u := by
    rw [hsame]
    exact hu1
  rw [handleRecordSettlement_success users form1 sid1 rid1 store u hu1 hle1]
  rw [handleRecordSettlement_success users form2 sid2 rid2 _ u hu2 hle2]
  refine ⟨rfl, rfl, by simp, ?_⟩
  intro p hp hpid
  have hbal := debitProfiles_balance form2 u
    (debitProfiles form1 u store.profiles) p hp hpid
  exact ⟨hbal, by rw [hbal]; omega⟩

/-- Scenario C instance of the amended C8: balance 500, two 300-credit
requests, both succeed, final balance 200. -/
theorem concurrentRequests_both_succeed_witness :
    runConcA.1 = SettleResult.success (settlementRowOf formC "STL_C1" "rcA")
      ∧
    runConcB.1 = SettleResult.success (settlementRowOf formC "STL_C2" "rcB")
      ∧
    runConcB.2.credit_ledger =
      storeA.credit_ledger ++
        [ledgerRowOf formC userAlice "STL_C1" "rcA",
          ledgerRowOf formC userAlice "STL_C2" "rcB"] ∧
    (∀ p ∈ runConcB.2.profiles,
      p.id = formC.userId →
        p.credit_balance = userAlice.credit_balance - formC.creditsUsed ∧
        0 ≤ p.credit_balance) :=
  concurrentRequests_both_succeed [userAlice] formC formC "STL_C1" "STL_C2"
    "rcA" "rcB" storeA userAlice (by rfl) (by rfl) (by decide) (by decide)

/-! ## Cross-entity invariant (C7) -/

/-- Number of ledger entries whose `reference_id` is the given id. -/
def ledgerRefCount (store : Store) (rid : String) : Nat :=
  store.credit_ledger.countP (fun e => e.reference_id == rid)

/-- Number of transfer rows whose `settlementId` is the given id. -/
def transferRefCount (store : Store) (rid : String) : Nat :=
  store.nila_transfers.countP (fun t => t.settlementId == rid)

/-- Sum of all ledger amounts recorded for a user (debits are negative). -/
def userLedgerSum (store : Store) (uid : String) : Int :=
  ((store.credit_ledger.filter (fun e => e.userId == uid)).map
    LedgerRow.amount).sum

/-- Cross-entity invariant, with references keyed on the settlement row's
store id: every processed settlement has exactly one ledger entry and one
transfer referencing its row id, and every stored balance is the user's
initial balance plus the cumulative ledger amounts. -/
def crossEntityInvariant (init : String → Int) (store : Store) : Prop :=
  (∀ s ∈ store.settlements, s.status = SettlementStatus.processed →
    ledgerRefCount store s.id = 1 ∧ transferRefCount store s.id = 1) ∧
  (∀ p ∈ store.profiles,
    p.credit_balance = init p.id + userLedgerSum store p.id)

instance (init : String → Int) (store : Store) :
    Decidable (crossEntityInvariant init store) := by
  unfold crossEntityInvariant ledgerRefCount transferRefCount userLedgerSum
  infer_instance

/-- C7 fails on the code as stated: after the processed scenario A
settlement, no ledger entry and no transfer carries the settlement's
`settlementId` (the STL string) — both carry the settlement row's store
id instead. -/
theorem processedSettlement_referenceId_counterexample :
    runA.1 = SettleResult.success (settlementRowOf formA sidA "a1b2c3") ∧
    (settlementRowOf formA sidA "a1b2c3").status =
      SettlementStatus.processed ∧
    ledgerRefCount runA.2 (settlementRowOf formA sidA "a1b2c3").settlementId
      = 0 ∧
    transferRefCount runA.2
      (settlementRowOf formA sidA "a1b2c3").settlementId = 0 ∧
    ledgerRefCount runA.2 (settlementRowOf formA sidA "a1b2c3").id = 1 ∧
    transferRefCount runA.2 (settlementRowOf formA sidA "a1b2c3").id = 1 := by
  decide

/-- C7 amended: with references keyed on the settlement row's store id,
one fault-free settlement run preserves the cross-entity invariant,
provided its cache agrees with the stored balances and the assigned row id
is fresh: every processed settlement keeps exactly one ledger entry and
one transfer referencing it, and every stored balance equals the initial
balance plus the cumulative debits. -/
theorem crossEntityInvariant_preserved (init : String → Int)
    (users : List User) (form : SettlementForm) (sid rid : String)
    (store : Store) (u : User)
    (hu : users.find? (fun w => w.id == form.userId) = some u)
    (hle : form.creditsUsed ≤ u.credit_balance)
    (hcache : ∀ p ∈ store.profiles, p.id = form.userId →
      p.credit_balance = u.credit_balance)
    (hfreshS : ∀ s ∈ store.settlements, s.id ≠ rid)
    (hfreshL : ∀ e ∈ store.credit_ledger, e.reference_id ≠ rid)
    (hfreshT : ∀ t ∈ store.nila_transfers, t.settlementId ≠ rid)
    (hinv : crossEntityInvariant init store) :
    crossEntityInvariant init
      (handleRecordSettlement users form sid rid noFaults store).2 := by
  rw [handleRecordSettlement_success users form sid rid store u hu hle]
  obtain ⟨hinv1, hinv2⟩ := hinv
  constructor
  · intro s hs hproc
    simp only [ledgerRefCount, transferRefCount] at hinv1 ⊢
    dsimp only at hs ⊢
    rw [List.mem_append] at hs
    rcases hs with hs | hs
    · have h1 := hinv1 s hs hproc
      have hne : ((rid == s.id) = false) :=
        beq_eq_false_iff_ne.mpr fun h => hfreshS s hs h.symm
      constructor
      · rw [List.countP_append, List.countP_cons, List.countP_nil]
        simp only [ledgerRowOf, hne]
        simpa using h1.1
      · rw [List.countP_append, List.countP_cons, List.countP_nil]
        simp only [transferRowOf, hne]
        simpa using h1.2
    · rw [List.mem_singleton] at hs
      subst hs
      constructor
      · rw [List.countP_append, List.countP_cons, List.countP_nil]
        rw [List.countP_eq_zero.mpr
          (fun e he => by simpa using hfreshL e he)]
        simp [ledgerRowOf, settlementRowOf]
      · rw [List.countP_append, List.countP_cons, List.countP_nil]
        rw [List.countP_eq_zero.mpr
          (fun t ht => by simpa using hfreshT t ht)]
        simp [transferRowOf, settlementRowOf]
  · intro p hp
    dsimp only at hp ⊢
    simp only [debitProfiles, List.mem_map] at hp
    obtain ⟨q, hq, rfl⟩ := hp
    simp only [userLedgerSum, List.filter_append, List.map_append,
      List.sum_append]
    cases hqid : (q.id == form.userId) with
    | false =>
      have hne : q.id ≠ form.userId := by simpa using hqid
      simp only [hqid, Bool.false_eq_true, if_false]
      have hdrop : ((form.userId == q.id) = false) :=
        beq_eq_false_iff_ne.mpr fun h => hne h.symm
      simp only [ledgerRowOf, List.filter, hdrop, List.map_nil,
        List.sum_nil, add_zero]
      have h2 := hinv2 q hq
      simpa [userLedgerSum] using h2
    | true =>
      have heq : q.id = form.userId := by simpa using hqid
      simp only [hqid, if_true]
      have hkeep : ((form.userId == q.id) = true) := by
        simp [heq]
      simp only [ledgerRowOf, List.filter, hkeep, List.map_cons,
        List.map_nil, List.sum_cons, List.sum_nil, add_zero]
      have h2 := hinv2 q hq
      have h3 := hcache q hq heq
      simp only [userLedgerSum] at h2
      omega

/-- Scenario A instance of the amended C7: starting from Alice's clean
store with initial balance 500, the invariant holds after the run. -/
theorem crossEntityInvariant_preserved_witness :
    crossEntityInvariant (fun _ => 500) runA.2 :=
  crossEntityInvariant_preserved (fun _ => 500) [userAlice] formA sidA
    "a1b2c3" storeA userAlice (by rfl) (by decide) (by decide) (by decide)
    (by decide) (by decide) (by decide)

end CBMAdmin
